import Mathlib

/-
Verification of the discord quiz-bot game orchestrator.

Shallow embedding of the Python sources:
  - config.py             : the Config record and its default tunables;
  - cogs/game_manager_cog.py : the question-lifecycle state machine
        (process_user_answer, skip_current_question, _reset_question_state,
         generate_and_post_new_question, question_inactivity_timer);
  - cogs/admin_cog.py     : the _is_authorized_admin check;
  - utils/openai_client.py : the _openai_call_with_retry loop.

Discord / OpenAI / Supabase I/O is represented by explicit parameters
(the environment's responses) and by an effect trace listing the external
calls the orchestrator performs.  Machine integers are Nat/Int; Python
truthiness of optional integer fields is modelled explicitly (None and 0
are falsy).  Strings stay Lean Strings.
-/

namespace QuizBot

/-- config.py Config: the game tunables (lines 31-39).  Credentials and
channel ids are irrelevant to the verified operations and omitted. -/
structure Config where
  QUESTION_INACTIVITY_TIMEOUT_HOURS : Nat
  MAX_ATTEMPTS_PER_QUESTION : Nat
  POINTS_EASY : Nat
  POINTS_MEDIUM : Nat
  POINTS_DIFFICULT : Nat
  POINTS_DEDUCTION_INCORRECT : Nat
  OPENAI_MAX_RETRIES : Nat
deriving Repr, DecidableEq

/-- The default values hard-coded in config.py lines 31-39. -/
def defaultConfig : Config :=
  { QUESTION_INACTIVITY_TIMEOUT_HOURS := 2
    MAX_ATTEMPTS_PER_QUESTION := 5
    POINTS_EASY := 1
    POINTS_MEDIUM := 2
    POINTS_DIFFICULT := 5
    POINTS_DEDUCTION_INCORRECT := 2
    OPENAI_MAX_RETRIES := 10 }

/-- Python str.lower(), character by character (the statuses and
difficulty strings it is applied to are ASCII). -/
def pyToLower (s : String) : String := String.mk (s.data.map Char.toLower)

/-- Python truthiness of an optional integer: None and 0 are falsy. -/
def truthyNat : Option Nat → Bool
  | none => false
  | some n => n != 0

/-- Python dict lookup on an association list keyed by Nat. -/
def alookup {α : Type} (k : Nat) : List (Nat × α) → Option α
  | [] => none
  | (k2, v) :: rest => if k = k2 then some v else alookup k rest

/-- Python dict assignment d[k] = v on an association list. -/
def aset {α : Type} (k : Nat) (v : α) : List (Nat × α) → List (Nat × α)
  | [] => [(k, v)]
  | (k2, v2) :: rest => if k = k2 then (k, v) :: rest else (k2, v2) :: aset k v rest

/-- Python round(n / 2) for a nonnegative integer n: Python 3 rounds
half-integers to the nearest even integer (banker's rounding), so
round(0.5) = 0, round(1.5) = 2, round(2.5) = 2.  This embeds the
expression round(self.current_question_points / 2) of
game_manager_cog.py line 322. -/
def pyRoundHalf (n : Nat) : Nat :=
  if n % 2 = 0 then n / 2
  else if (n / 2) % 2 = 0 then n / 2 else n / 2 + 1

/-- The mutable question/session state of GameManagerCog
(game_manager_cog.py lines 25-35).  user_attempts maps a question
message id to a per-user attempt-count dict. -/
structure GameState where
  active_session_id : Option Nat
  current_question_text : Option String
  current_question_intended_answer : Option String
  current_question_difficulty : Option String
  current_question_points : Nat
  current_question_message_id : Option Nat
  current_question_post_time : Option Nat
  user_attempts : List (Nat × List (Nat × Nat))
  question_answered_by : Option Nat
deriving Repr, DecidableEq

/-- _reset_question_state (game_manager_cog.py lines 148-161):
clears the question slot; the message id is cleared only when
clear_message_id is true (the default at every call site). -/
def reset_question_state (s : GameState) (clear_message_id : Bool) : GameState :=
  { s with
    current_question_text := none
    current_question_intended_answer := none
    current_question_difficulty := none
    current_question_points := 0
    current_question_message_id :=
      if clear_message_id then none else s.current_question_message_id
    current_question_post_time := none
    user_attempts := []
    question_answered_by := none }

/-- The question slot is empty: all question fields null/zero, the
attempt map empty, the resolver null. -/
def questionSlotEmpty (s : GameState) : Prop :=
  s.current_question_text = none ∧
  s.current_question_intended_answer = none ∧
  s.current_question_difficulty = none ∧
  s.current_question_points = 0 ∧
  s.current_question_message_id = none ∧
  s.current_question_post_time = none ∧
  s.user_attempts = [] ∧
  s.question_answered_by = none

instance (s : GameState) : Decidable (questionSlotEmpty s) := by
  unfold questionSlotEmpty; infer_instance

/-- admin_cog.py _is_authorized_admin (lines 18-40): with an empty
ADMIN_USER_IDS list only the bot owner passes; with a non-empty list a
user passes iff their id is in the list or they are the owner. -/
def is_authorized_admin (admin_ids : List Nat) (is_owner : Bool) (uid : Nat) : Bool :=
  if admin_ids.isEmpty then
    if is_owner then true else false
  else
    if admin_ids.contains uid || is_owner then true else false

/-- Outcome of one OpenAI chat-completions API attempt, as seen by the
except-clauses of _openai_call_with_retry (openai_client.py lines 31-50). -/
inductive ApiOutcome where
  | success
  | connErr
  | rateLimitErr
  | statusErr (code : Nat)
  | otherErr
deriving Repr, DecidableEq

/-- An exception propagating out of _openai_call_with_retry. -/
inductive RaisedExc where
  | apiConnectionError
  | rateLimitError
  | apiStatusError (code : Nat)
  | otherError
  | nameErrorRandomNotDefined
deriving Repr, DecidableEq

/-- Result of _openai_call_with_retry: a successful response, the
fall-through return None at line 63, or a raised exception. -/
inductive CallResult where
  | ok
  | returnedNone
  | raised (e : RaisedExc)
deriving Repr, DecidableEq

/-- openai_client.py imports openai, asyncio, logging, json and config
(lines 2-6); the random module is NOT imported, so evaluating the name
random at line 60 raises NameError. -/
def moduleImportsRandom : Bool := false

/-- The exception object bound by the except-clause for a failed attempt
(it becomes last_exception, openai_client.py lines 35-50). -/
def excOfOutcome : ApiOutcome → RaisedExc
  | ApiOutcome.success => RaisedExc.otherError
  | ApiOutcome.connErr => RaisedExc.apiConnectionError
  | ApiOutcome.rateLimitErr => RaisedExc.rateLimitError
  | ApiOutcome.statusErr code => RaisedExc.apiStatusError code
  | ApiOutcome.otherErr => RaisedExc.otherError

/-- One iteration of the retry for-loop at attempt index
maxRetries - remaining, given the environment's outcome for each attempt
index.  Returns the call result together with the number of API attempts
actually made.  Mirrors openai_client.py lines 30-63: an APIStatusError
with code 400/401/403/404/429 is re-raised immediately (line 46-47); on
the last attempt the latest exception is re-raised (lines 52-55);
otherwise the loop computes 2 ** attempt + random.uniform(0, 1)
(line 60), which raises NameError because random was never imported. -/
def retryAux (outcomes : Nat → ApiOutcome) (maxRetries : Nat) :
    Nat → Nat → CallResult × Nat
  | 0, calls => (CallResult.returnedNone, calls)
  | Nat.succ remaining, calls =>
    let attempt := maxRetries - Nat.succ remaining
    let calls1 := calls + 1
    match outcomes attempt with
    | ApiOutcome.success => (CallResult.ok, calls1)
    | o =>
      let e := excOfOutcome o
      let immediateRaise : Bool :=
        match o with
        | ApiOutcome.statusErr code =>
          code = 400 || code = 401 || code = 403 || code = 404 || code = 429
        | _ => false
      if immediateRaise then (CallResult.raised e, calls1)
      else if remaining = 0 then (CallResult.raised e, calls1)
      else if moduleImportsRandom then retryAux outcomes maxRetries remaining calls1
      else (CallResult.raised RaisedExc.nameErrorRandomNotDefined, calls1)

/-- _openai_call_with_retry (openai_client.py lines 23-63), abstracting
the network by a map from attempt index to that attempt's outcome. -/
def openai_call_with_retry (cfg : Config) (outcomes : Nat → ApiOutcome) :
    CallResult × Nat :=
  retryAux outcomes cfg.OPENAI_MAX_RETRIES cfg.OPENAI_MAX_RETRIES 0

/-- External calls performed by the orchestrator, recorded as a trace. -/
inductive Effect where
  | update_score (user_id : String) (session_id : Nat) (delta : Int)
  | eval_call (question intended_answer : Option String) (user_answer : String)
  | gen_task
  | skip_call (msg_id : Nat)
  | gen_call
  | skip_announce (msg_id : Nat)
  | post_question (msg_id : Nat)
deriving Repr, DecidableEq

/-- Result of OpenAIClient.evaluate_answer as consumed by
process_user_answer: None / a dict with an error key / a dict with
status and explanation (status already coerced into the three legal
values by the adapter, openai_client.py lines 207-212). -/
inductive EvalOutcome where
  | noResponse
  | err (msg : String)
  | ok (status : String) (explanation : Option String)
deriving Repr, DecidableEq

/-- Private-feedback return values of process_user_answer, one
constructor per return site of game_manager_cog.py lines 255-369. -/
inductive AnswerMsg where
  | noActiveQuestion
  | alreadyAnswered (uid : Nat)
  | noAttemptsLeft (max_attempts : Nat)
  | couldNotEvaluate (err : String)
  | dbError
  | correctFeedback (points : Nat)
  | halfCreditFeedback (points : Nat) (explanation : Option String)
  | incorrectFeedback (deduction : Nat) (attempts_remaining : Nat)
deriving Repr, DecidableEq

/-- Per-question per-user attempt count: user_attempts[k].get(uid, 0). -/
def attemptCountOf (ua : List (Nat × List (Nat × Nat))) (k uid : Nat) : Nat :=
  match alookup k ua with
  | none => 0
  | some m => (alookup uid m).getD 0

/-- The dict-initialization step of game_manager_cog.py lines 275-278:
if the key is absent from user_attempts, bind it to an empty dict. -/
def ensureKey (k : Nat) (ua : List (Nat × List (Nat × Nat))) :
    List (Nat × List (Nat × Nat)) :=
  match alookup k ua with
  | none => aset k [] ua
  | some _ => ua

/-- The calling user's attempt count on the current question. -/
def attemptCount (s : GameState) (uid : Nat) : Nat :=
  attemptCountOf s.user_attempts (s.current_question_message_id.getD 0) uid

/-- process_user_answer (game_manager_cog.py lines 255-369).  The
environment is passed in: dbAvailable is whether bot.db_manager is set,
ev is the adapter's evaluation of this answer, now is the wall clock.
Returns the private feedback, the successor state and the trace of
external calls (evaluate_answer, update_score, and the fire-and-forget
generate task scheduled at line 367). -/
def process_user_answer (cfg : Config) (dbAvailable : Bool) (ev : EvalOutcome)
    (now : Nat) (uid : Nat) (answer_text : String) (s : GameState) :
    AnswerMsg × GameState × List Effect :=
  if !truthyNat s.current_question_message_id || !truthyNat s.active_session_id then
    (AnswerMsg.noActiveQuestion, s, [])
  else if truthyNat s.question_answered_by then
    (AnswerMsg.alreadyAnswered (s.question_answered_by.getD 0), s, [])
  else
    let s1 := { s with current_question_post_time := some now }
    let key := s1.current_question_message_id.getD 0
    let ua1 := ensureKey key s1.user_attempts
    let s2 := { s1 with user_attempts := ua1 }
    let count := attemptCountOf ua1 key uid
    if count ≥ cfg.MAX_ATTEMPTS_PER_QUESTION then
      (AnswerMsg.noAttemptsLeft cfg.MAX_ATTEMPTS_PER_QUESTION, s2, [])
    else
      let ua2 := aset key (aset uid (count + 1) ((alookup key ua1).getD [])) ua1
      let s3 := { s2 with user_attempts := ua2 }
      let attempts_remaining := cfg.MAX_ATTEMPTS_PER_QUESTION - (count + 1)
      let evalEffect :=
        Effect.eval_call s3.current_question_text
          s3.current_question_intended_answer answer_text
      match ev with
      | EvalOutcome.noResponse =>
        let ua3 := aset key
          (aset uid (attemptCountOf ua2 key uid - 1) ((alookup key ua2).getD [])) ua2
        (AnswerMsg.couldNotEvaluate "Could not evaluate answer",
         { s3 with user_attempts := ua3 }, [evalEffect])
      | EvalOutcome.err msg =>
        let ua3 := aset key
          (aset uid (attemptCountOf ua2 key uid - 1) ((alookup key ua2).getD [])) ua2
        (AnswerMsg.couldNotEvaluate msg,
         { s3 with user_attempts := ua3 }, [evalEffect])
      | EvalOutcome.ok statusRaw explanation =>
        let status := pyToLower statusRaw
        if !dbAvailable then
          (AnswerMsg.dbError, s3, [evalEffect])
        else
          let branch : AnswerMsg × GameState × List Effect :=
            if status = "correct" then
              let points_awarded := s3.current_question_points
              (AnswerMsg.correctFeedback points_awarded,
               { s3 with question_answered_by := some uid },
               [Effect.update_score (toString uid) (s3.active_session_id.getD 0)
                  (Int.ofNat points_awarded)])
            else if status = "partially correct" then
              let points_awarded := pyRoundHalf s3.current_question_points
              (AnswerMsg.halfCreditFeedback points_awarded explanation,
               { s3 with question_answered_by := some uid },
               [Effect.update_score (toString uid) (s3.active_session_id.getD 0)
                  (Int.ofNat points_awarded)])
            else
              (AnswerMsg.incorrectFeedback cfg.POINTS_DEDUCTION_INCORRECT
                 attempts_remaining,
               s3,
               [Effect.update_score (toString uid) (s3.active_session_id.getD 0)
                  (-(Int.ofNat cfg.POINTS_DEDUCTION_INCORRECT))])
          let (msg, s4, scoreEffects) := branch
          let tailEffects :=
            if truthyNat s4.question_answered_by then [Effect.gen_task] else []
          (msg, s4, evalEffect :: scoreEffects ++ tailEffects)

/-- Return messages of skip_current_question. -/
inductive SkipMsg where
  | noActiveToSkip
  | skipped (question_text intended_answer : Option String)
deriving Repr, DecidableEq

/-- skip_current_question (game_manager_cog.py lines 371-425): aborts if
no active question or session; otherwise captures the reveal data,
resets the question state, edits the channel message (skip_announce),
and returns the reveal text.  It never triggers question generation. -/
def skip_current_question (s : GameState) : SkipMsg × GameState × List Effect :=
  if !truthyNat s.current_question_message_id || !truthyNat s.active_session_id then
    (SkipMsg.noActiveToSkip, s, [])
  else
    let skipped_question_text := s.current_question_text
    let skipped_intended_answer := s.current_question_intended_answer
    let skipped_message_id := s.current_question_message_id.getD 0
    let s2 := reset_question_state s true
    (SkipMsg.skipped skipped_question_text skipped_intended_answer, s2,
     [Effect.skip_announce skipped_message_id])

/-- Result of OpenAIClient.generate_question as consumed by
generate_and_post_new_question: None / an error dict / a full
question dict. -/
inductive QGenResult where
  | noData
  | errKey (msg : String)
  | ok (question intended_answer difficulty_assessment : String)
deriving Repr, DecidableEq

/-- Boolean prefix test on character lists. -/
def listPrefixEq : List Char → List Char → Bool
  | [], _ => true
  | _ :: _, [] => false
  | a :: as, b :: bs => a == b && listPrefixEq as bs

/-- Boolean substring occurrence test on character lists. -/
def listContainsSub (needle : List Char) : List Char → Bool
  | [] => listPrefixEq needle []
  | c :: rest => listPrefixEq needle (c :: rest) || listContainsSub needle rest

/-- Python substring test: needle in hay. -/
def strContains (hay needle : String) : Bool :=
  listContainsSub needle.toList hay.toList

/-- Point value derived from the lowercased difficulty assessment by the
substring matches of game_manager_cog.py lines 206-211 (unknown
difficulty defaults to medium). -/
def pointsForDifficulty (cfg : Config) (difficulty : String) : Nat :=
  if strContains difficulty "basic" then cfg.POINTS_EASY
  else if strContains difficulty "intermediate" then cfg.POINTS_MEDIUM
  else if strContains difficulty "advanced" then cfg.POINTS_DIFFICULT
  else cfg.POINTS_MEDIUM

/-- generate_and_post_new_question (game_manager_cog.py lines 163-238).
channelOk is whether the quiz channel resolved, topics the loaded topic
list, gen the adapter's question, newMsgId the id Discord assigns to the
posted message, now the wall clock.  Aborts (after the reset) on adapter
failure or an empty topic list; on success installs the new question and
initializes its empty attempt map. -/
def generate_and_post_new_question (cfg : Config) (channelOk : Bool)
    (topics : List String) (gen : QGenResult) (newMsgId : Nat) (now : Nat)
    (s : GameState) : GameState × List Effect :=
  if !channelOk then (s, [])
  else if !truthyNat s.active_session_id then (s, [])
  else
    let s1 := reset_question_state s true
    if topics.isEmpty then (s1, [])
    else
      match gen with
      | QGenResult.noData => (s1, [])
      | QGenResult.errKey _ => (s1, [])
      | QGenResult.ok q ia diffA =>
        let difficulty := pyToLower diffA
        let points := pointsForDifficulty cfg difficulty
        let s2 := { s1 with
          current_question_text := some q
          current_question_intended_answer := some ia
          current_question_difficulty := some difficulty
          current_question_points := points
          current_question_message_id := some newMsgId
          current_question_post_time := some now
          user_attempts := aset newMsgId [] s1.user_attempts }
        (s2, [Effect.post_question newMsgId])

/-- The inactivity timeout as seconds, matching timestamps in seconds. -/
def timeoutSeconds (cfg : Config) : Nat :=
  cfg.QUESTION_INACTIVITY_TIMEOUT_HOURS * 3600

/-- question_inactivity_timer tick body (game_manager_cog.py lines
428-445): no-op without an active session, without a current question,
with a resolver already set, or without a post time; otherwise, when now
minus the last-activity timestamp exceeds the timeout, performs one
skip_current_question(timeout_initiated) followed by one
generate_and_post_new_question. -/
def question_inactivity_timer (cfg : Config) (now : Nat) (channelOk : Bool)
    (topics : List String) (gen : QGenResult) (newMsgId : Nat)
    (s : GameState) : GameState × List Effect :=
  if !truthyNat s.active_session_id || !truthyNat s.current_question_message_id
      || truthyNat s.question_answered_by then
    (s, [])
  else
    match s.current_question_post_time with
    | none => (s, [])
    | some t =>
      if now - t > timeoutSeconds cfg then
        let mid := s.current_question_message_id.getD 0
        let (_, s1, e1) := skip_current_question s
        let (s2, e2) :=
          generate_and_post_new_question cfg channelOk topics gen newMsgId now s1
        (s2, (Effect.skip_call mid :: e1) ++ (Effect.gen_call :: e2))
      else (s, [])

/-! ### Helper lemmas about the association-list dict model -/

theorem alookup_aset_self {α : Type} (k : Nat) (v : α) (ua : List (Nat × α)) :
    alookup k (aset k v ua) = some v := by
  induction ua with
  | nil => simp [aset, alookup]
  | cons hd tl ih =>
    obtain ⟨k2, v2⟩ := hd
    by_cases hk : k = k2
    · simp [aset, alookup, hk]
    · simp [aset, alookup, hk, ih]

theorem alookup_aset_ne {α : Type} (k k2 : Nat) (v : α) (ua : List (Nat × α))
    (h : k ≠ k2) : alookup k (aset k2 v ua) = alookup k ua := by
  induction ua with
  | nil => simp [aset, alookup, h]
  | cons hd tl ih =>
    obtain ⟨k3, v3⟩ := hd
    by_cases hk : k2 = k3
    · subst hk; simp [aset, alookup, h]
    · by_cases hk2 : k = k3
      · simp [aset, alookup, hk, hk2]
      · simp [aset, alookup, hk, hk2, ih]

theorem attemptCountOf_ensureKey (k uid : Nat)
    (ua : List (Nat × List (Nat × Nat))) :
    attemptCountOf (ensureKey k ua) k uid = attemptCountOf ua k uid := by
  unfold ensureKey
  cases h : alookup k ua with
  | none => simp [attemptCountOf, alookup_aset_self, h, alookup]
  | some m => simp [attemptCountOf, h]

theorem attemptCountOf_charge (k uid n : Nat)
    (ua : List (Nat × List (Nat × Nat))) :
    attemptCountOf (aset k (aset uid n ((alookup k ua).getD [])) ua) k uid = n := by
  simp [attemptCountOf, alookup_aset_self]

theorem attemptCountOf_charge_other (k uid u n : Nat)
    (ua : List (Nat × List (Nat × Nat))) (h : u ≠ uid) :
    attemptCountOf (aset k (aset uid n ((alookup k ua).getD [])) ua) k u
      = attemptCountOf ua k u := by
  cases hk : alookup k ua with
  | none =>
    simp [attemptCountOf, alookup_aset_self, hk, alookup_aset_ne u uid n [] h,
      alookup, h]
  | some m =>
    simp [attemptCountOf, alookup_aset_self, hk, alookup_aset_ne u uid n m h]

theorem attemptCountOf_other_key (k k2 uid : Nat)
    (v : List (Nat × Nat)) (ua : List (Nat × List (Nat × Nat))) (h : k ≠ k2) :
    attemptCountOf (aset k2 v ua) k uid = attemptCountOf ua k uid := by
  simp [attemptCountOf, alookup_aset_ne k k2 v ua h]

theorem truthyNat_some {n : Nat} (h : n ≠ 0) : truthyNat (some n) = true := by
  simp [truthyNat, h]

/-! ### Sample states used as concrete witnesses -/

/-- A state with an active session and an unresolved advanced (5-point)
question, as after generate_and_post_new_question succeeded. -/
def sampleAdvanced : GameState :=
  { active_session_id := some 1
    current_question_text := some "Q"
    current_question_intended_answer := some "A"
    current_question_difficulty := some "advanced knowledge"
    current_question_points := 5
    current_question_message_id := some 100
    current_question_post_time := some 50
    user_attempts := [(100, [])]
    question_answered_by := none }

/-- A freshly reset state inside an active session. -/
def sampleEmptySlot : GameState :=
  { active_session_id := some 1
    current_question_text := none
    current_question_intended_answer := none
    current_question_difficulty := none
    current_question_points := 0
    current_question_message_id := none
    current_question_post_time := none
    user_attempts := []
    question_answered_by := none }

/-! ### Claim theorems -/

/-- C8: For every invocation of the privileged commands, when the
configured admin allow-list is empty, authorization is granted exactly
to the bot owner; when the list is non-empty, a user is authorized if
and only if their identifier is in the list or they are the owner. -/
theorem admin_auth_allowlist (admin_ids : List Nat) (is_owner : Bool) (uid : Nat) :
    (admin_ids = [] →
      (is_authorized_admin admin_ids is_owner uid = true ↔ is_owner = true)) ∧
    (admin_ids ≠ [] →
      (is_authorized_admin admin_ids is_owner uid = true ↔
        uid ∈ admin_ids ∨ is_owner = true)) := by
  constructor
  · intro h; subst h
    cases is_owner <;> simp [is_authorized_admin]
  · intro h
    simp [is_authorized_admin, List.isEmpty_iff, h]

/-- Witness for C8 at concrete inputs: empty list admits the owner;
the list [1, 2] admits user 2 who is not the owner. -/
theorem admin_auth_allowlist_witness :
    (is_authorized_admin [] true 5 = true ↔ true = true) ∧
    (is_authorized_admin [1, 2] false 2 = true ↔ 2 ∈ [1, 2] ∨ false = true) :=
  ⟨(admin_auth_allowlist [] true 5).1 rfl,
   (admin_auth_allowlist [1, 2] false 2).2 (by decide)⟩

/-- C9: reset_question_state is idempotent — applying it twice equals
applying it once — and resetting an already-empty question slot (all
question fields null/zero, attempt map empty, resolver null) is a
no-op. -/
theorem reset_question_state_idempotent (s : GameState) :
    reset_question_state (reset_question_state s true) true
        = reset_question_state s true ∧
    (questionSlotEmpty s → reset_question_state s true = s) := by
  refine ⟨rfl, ?_⟩
  intro h
  obtain ⟨h1, h2, h3, h4, h5, h6, h7, h8⟩ := h
  cases s
  simp_all [reset_question_state]

/-- Witness for C9 at a concrete state whose question slot is empty. -/
theorem reset_question_state_idempotent_witness :
    reset_question_state (reset_question_state sampleEmptySlot true) true
        = reset_question_state sampleEmptySlot true ∧
    reset_question_state sampleEmptySlot true = sampleEmptySlot :=
  ⟨(reset_question_state_idempotent sampleEmptySlot).1,
   (reset_question_state_idempotent sampleEmptySlot).2 (by decide)⟩

/-- C2 (code bug): when the first API attempt fails with a retryable
connection error, _openai_call_with_retry never reaches a second
attempt: the backoff expression 2 ** attempt + random.uniform(0, 1) at
openai_client.py line 60 raises NameError because the random module is
never imported (lines 2-6).  With the configured bound of 10 attempts,
exactly one API call is made and NameError propagates.  The non-retry
part of the policy does hold: an explicit 401 client error propagates
immediately after one attempt. -/
theorem retry_backoff_raises_nameerror :
    openai_call_with_retry defaultConfig
        (fun i => if i = 0 then ApiOutcome.connErr else ApiOutcome.success)
      = (CallResult.raised RaisedExc.nameErrorRandomNotDefined, 1) ∧
    openai_call_with_retry defaultConfig (fun _ => ApiOutcome.rateLimitErr)
      = (CallResult.raised RaisedExc.nameErrorRandomNotDefined, 1) ∧
    openai_call_with_retry defaultConfig (fun _ => ApiOutcome.statusErr 401)
      = (CallResult.raised (RaisedExc.apiStatusError 401), 1) := by
  refine ⟨rfl, rfl, rfl⟩

/-- C1 counterexample: on a 5-point (difficult) question, a
"Partially correct" evaluation awards round(5 / 2) = 2 points, not the
3 points the claim asserts (Python 3 round is half-to-even, so
round(2.5) = 2). -/
theorem half_credit_difficult_counterexample :
    (process_user_answer defaultConfig true
        (EvalOutcome.ok "Partially correct" (some "expl")) 1000 42 "ans"
        sampleAdvanced).1
      = AnswerMsg.halfCreditFeedback 2 (some "expl") ∧
    (process_user_answer defaultConfig true
        (EvalOutcome.ok "Partially correct" (some "expl")) 1000 42 "ans"
        sampleAdvanced).2.2.contains
        (Effect.update_score "42" 1 2) = true ∧
    (2 : Nat) ≠ 3 := by
  refine ⟨by decide, by decide, by decide⟩

/-- C1 (amended): for every active question with no resolver, when a
user with attempts remaining receives a "partially correct" evaluation,
process_user_answer awards round(full_points / 2) points under Python's
round-half-to-even, calls update_score with that delta and sets the
resolver; under the configured tier point values this yields basic=1→0,
medium=2→1, difficult=5→2. -/
theorem half_credit_awards_round_half (cfg : Config) (now uid m sid : Nat)
    (statusRaw ans : String) (expl : Option String) (s : GameState)
    (hm : s.current_question_message_id = some m) (hm0 : m ≠ 0)
    (hs : s.active_session_id = some sid) (hs0 : sid ≠ 0)
    (hr : s.question_answered_by = none)
    (hc : attemptCount s uid < cfg.MAX_ATTEMPTS_PER_QUESTION)
    (hst : pyToLower statusRaw = "partially correct") :
    ((process_user_answer cfg true (EvalOutcome.ok statusRaw expl) now uid ans s).1
        = AnswerMsg.halfCreditFeedback (pyRoundHalf s.current_question_points) expl) ∧
    (Effect.update_score (toString uid) sid
          (Int.ofNat (pyRoundHalf s.current_question_points))
        ∈ (process_user_answer cfg true (EvalOutcome.ok statusRaw expl) now uid ans
            s).2.2) ∧
    ((process_user_answer cfg true (EvalOutcome.ok statusRaw expl) now uid ans
          s).2.1.question_answered_by = some uid) ∧
    pyRoundHalf defaultConfig.POINTS_EASY = 0 ∧
    pyRoundHalf defaultConfig.POINTS_MEDIUM = 1 ∧
    pyRoundHalf defaultConfig.POINTS_DIFFICULT = 2 := by
  have htm : truthyNat s.current_question_message_id = true := by
    rw [hm]; exact truthyNat_some hm0
  have hts : truthyNat s.active_session_id = true := by
    rw [hs]; exact truthyNat_some hs0
  have htr : truthyNat s.question_answered_by = false := by rw [hr]; rfl
  have hcount : attemptCountOf (ensureKey m s.user_attempts) m uid
      = attemptCount s uid := by
    rw [attemptCountOf_ensureKey]; simp [attemptCount, hm]
  have hge : ¬ attemptCountOf (ensureKey m s.user_attempts) m uid
      ≥ cfg.MAX_ATTEMPTS_PER_QUESTION := by
    rw [hcount]; exact not_le.mpr hc
  have h1 : truthyNat (some m) = true := truthyNat_some hm0
  have h2 : truthyNat (some sid) = true := truthyNat_some hs0
  simp [process_user_answer, htm, hts, htr, hm, hs, hst, hge, h1, h2,
    pyRoundHalf, defaultConfig]

/-- Witness for C1 (amended), instantiated on the concrete 5-point
sample question. -/
theorem half_credit_awards_round_half_witness :
    ((process_user_answer defaultConfig true
          (EvalOutcome.ok "Partially Correct" (some "e")) 77 42 "a"
          sampleAdvanced).1
        = AnswerMsg.halfCreditFeedback
            (pyRoundHalf sampleAdvanced.current_question_points) (some "e")) ∧
    (Effect.update_score (toString 42) 1
          (Int.ofNat (pyRoundHalf sampleAdvanced.current_question_points))
        ∈ (process_user_answer defaultConfig true
            (EvalOutcome.ok "Partially Correct" (some "e")) 77 42 "a"
            sampleAdvanced).2.2) ∧
    ((process_user_answer defaultConfig true
          (EvalOutcome.ok "Partially Correct" (some "e")) 77 42 "a"
          sampleAdvanced).2.1.question_answered_by = some 42) ∧
    pyRoundHalf defaultConfig.POINTS_EASY = 0 ∧
    pyRoundHalf defaultConfig.POINTS_MEDIUM = 1 ∧
    pyRoundHalf defaultConfig.POINTS_DIFFICULT = 2 :=
  half_credit_awards_round_half defaultConfig 77 42 100 1
    "Partially Correct" "a" (some "e") sampleAdvanced
    (by decide) (by decide) (by decide) (by decide) (by decide) (by decide)
    (by decide)

/-- C3: once a resolver is set for the active question, every subsequent
process_user_answer call returns the already-answered message, leaves
the state — attempt counts and resolver included — completely unchanged,
and performs no external call, in particular no update_score. -/
theorem already_answered_short_circuits (cfg : Config) (db : Bool)
    (ev : EvalOutcome) (now uid m sid r : Nat) (ans : String) (s : GameState)
    (hm : s.current_question_message_id = some m) (hm0 : m ≠ 0)
    (hs : s.active_session_id = some sid) (hs0 : sid ≠ 0)
    (hr : s.question_answered_by = some r) (hr0 : r ≠ 0) :
    process_user_answer cfg db ev now uid ans s
      = (AnswerMsg.alreadyAnswered r, s, []) := by
  have htm : truthyNat s.current_question_message_id = true := by
    rw [hm]; exact truthyNat_some hm0
  have hts : truthyNat s.active_session_id = true := by
    rw [hs]; exact truthyNat_some hs0
  have htr : truthyNat s.question_answered_by = true := by
    rw [hr]; exact truthyNat_some hr0
  simp [process_user_answer, htm, hts, htr, hr, truthyNat_some hm0,
    truthyNat_some hs0, truthyNat_some hr0, hm, hs]

/-- A resolved question: user 7 already answered sampleAdvanced. -/
def sampleResolved : GameState :=
  { sampleAdvanced with question_answered_by := some 7 }

/-- Witness for C3 on the concrete resolved state. -/
theorem already_answered_short_circuits_witness :
    process_user_answer defaultConfig true (EvalOutcome.ok "Correct" none)
        99 42 "a" sampleResolved
      = (AnswerMsg.alreadyAnswered 7, sampleResolved, []) :=
  already_answered_short_circuits defaultConfig true (EvalOutcome.ok "Correct" none)
    99 42 100 1 7 "a" sampleResolved
    (by decide) (by decide) (by decide) (by decide) (by decide) (by decide)

/-- C10: when the attempt was charged and the evaluation succeeded but
the store adapter is unavailable at scoring time, process_user_answer
returns the database-error message, the charged attempt is not refunded
(the count after the call is one more than before), no update_score call
occurs and no resolver is set. -/
theorem db_unavailable_keeps_charge (cfg : Config) (now uid m sid : Nat)
    (statusRaw ans : String) (expl : Option String) (s : GameState)
    (hm : s.current_question_message_id = some m) (hm0 : m ≠ 0)
    (hs : s.active_session_id = some sid) (hs0 : sid ≠ 0)
    (hr : s.question_answered_by = none)
    (hc : attemptCount s uid < cfg.MAX_ATTEMPTS_PER_QUESTION) :
    ((process_user_answer cfg false (EvalOutcome.ok statusRaw expl) now uid ans
        s).1 = AnswerMsg.dbError) ∧
    (attemptCount (process_user_answer cfg false (EvalOutcome.ok statusRaw expl)
        now uid ans s).2.1 uid = attemptCount s uid + 1) ∧
    (∀ u sess d, Effect.update_score u sess d
        ∉ (process_user_answer cfg false (EvalOutcome.ok statusRaw expl) now uid
            ans s).2.2) ∧
    ((process_user_answer cfg false (EvalOutcome.ok statusRaw expl) now uid ans
        s).2.1.question_answered_by = none) := by
  have htm : truthyNat s.current_question_message_id = true := by
    rw [hm]; exact truthyNat_some hm0
  have hts : truthyNat s.active_session_id = true := by
    rw [hs]; exact truthyNat_some hs0
  have htr : truthyNat s.question_answered_by = false := by rw [hr]; rfl
  have hcount : attemptCountOf (ensureKey m s.user_attempts) m uid
      = attemptCount s uid := by
    rw [attemptCountOf_ensureKey]; simp [attemptCount, hm]
  have hge : ¬ cfg.MAX_ATTEMPTS_PER_QUESTION
      ≤ attemptCountOf s.user_attempts m uid := by
    simpa [attemptCount, hm] using not_le.mpr hc
  have h1 : truthyNat (some m) = true := truthyNat_some hm0
  have h2 : truthyNat (some sid) = true := truthyNat_some hs0
  simp [process_user_answer, truthyNat, htm, hts, htr, hm, hs, hr, hge, h1, h2,
    hm0, hs0, attemptCount, attemptCountOf_charge, hcount, attemptCountOf_ensureKey]

/-- Witness for C10: a db outage after a successful "Correct" evaluation
on the sample question costs user 42 the attempt with no score update. -/
theorem db_unavailable_keeps_charge_witness :
    ((process_user_answer defaultConfig false (EvalOutcome.ok "Correct" none)
        99 42 "a" sampleAdvanced).1 = AnswerMsg.dbError) ∧
    (attemptCount (process_user_answer defaultConfig false
        (EvalOutcome.ok "Correct" none) 99 42 "a" sampleAdvanced).2.1 42
      = attemptCount sampleAdvanced 42 + 1) ∧
    (∀ u sess d, Effect.update_score u sess d
        ∉ (process_user_answer defaultConfig false (EvalOutcome.ok "Correct" none)
            99 42 "a" sampleAdvanced).2.2) ∧
    ((process_user_answer defaultConfig false (EvalOutcome.ok "Correct" none)
        99 42 "a" sampleAdvanced).2.1.question_answered_by = none) :=
  db_unavailable_keeps_charge defaultConfig 99 42 100 1 "Correct" "a" none
    sampleAdvanced (by decide) (by decide) (by decide) (by decide) (by decide)
    (by decide)

/-- C5: when the LLM evaluation returns an adapter error, the just
charged attempt is refunded — the user's count after the call equals its
value from before the call — and process_user_answer returns the
could-not-evaluate message without any update_score call. -/
theorem eval_error_refunds_attempt (cfg : Config) (db : Bool)
    (now uid m sid : Nat) (emsg ans : String) (s : GameState)
    (hm : s.current_question_message_id = some m) (hm0 : m ≠ 0)
    (hs : s.active_session_id = some sid) (hs0 : sid ≠ 0)
    (hr : s.question_answered_by = none)
    (hc : attemptCount s uid < cfg.MAX_ATTEMPTS_PER_QUESTION) :
    ((process_user_answer cfg db (EvalOutcome.err emsg) now uid ans s).1
      = AnswerMsg.couldNotEvaluate emsg) ∧
    (attemptCount (process_user_answer cfg db (EvalOutcome.err emsg) now uid ans
        s).2.1 uid = attemptCount s uid) ∧
    (∀ u sess d, Effect.update_score u sess d
        ∉ (process_user_answer cfg db (EvalOutcome.err emsg) now uid ans
            s).2.2) ∧
    ((process_user_answer cfg db (EvalOutcome.err emsg) now uid ans
        s).2.1.question_answered_by = none) := by
  have htm : truthyNat s.current_question_message_id = true := by
    rw [hm]; exact truthyNat_some hm0
  have hts : truthyNat s.active_session_id = true := by
    rw [hs]; exact truthyNat_some hs0
  have htr : truthyNat s.question_answered_by = false := by rw [hr]; rfl
  have hcount : attemptCountOf (ensureKey m s.user_attempts) m uid
      = attemptCount s uid := by
    rw [attemptCountOf_ensureKey]; simp [attemptCount, hm]
  have hge : ¬ cfg.MAX_ATTEMPTS_PER_QUESTION
      ≤ attemptCountOf s.user_attempts m uid := by
    simpa [attemptCount, hm] using not_le.mpr hc
  have h1 : truthyNat (some m) = true := truthyNat_some hm0
  have h2 : truthyNat (some sid) = true := truthyNat_some hs0
  simp [process_user_answer, truthyNat, htm, hts, htr, hm, hs, hr, hge, h1, h2,
    hm0, hs0, attemptCount, attemptCountOf_charge, hcount, attemptCountOf_ensureKey]

/-- Witness for C5: an adapter error on the sample question leaves user
42 with the attempt count from before the call. -/
theorem eval_error_refunds_attempt_witness :
    ((process_user_answer defaultConfig true (EvalOutcome.err "boom") 99 42 "a"
        sampleAdvanced).1 = AnswerMsg.couldNotEvaluate "boom") ∧
    (attemptCount (process_user_answer defaultConfig true (EvalOutcome.err "boom")
        99 42 "a" sampleAdvanced).2.1 42 = attemptCount sampleAdvanced 42) ∧
    (∀ u sess d, Effect.update_score u sess d
        ∉ (process_user_answer defaultConfig true (EvalOutcome.err "boom") 99 42
            "a" sampleAdvanced).2.2) ∧
    ((process_user_answer defaultConfig true (EvalOutcome.err "boom") 99 42 "a"
        sampleAdvanced).2.1.question_answered_by = none) :=
  eval_error_refunds_attempt defaultConfig true 99 42 100 1 "boom" "a"
    sampleAdvanced (by decide) (by decide) (by decide) (by decide) (by decide)
    (by decide)

/-- C6: with an active question, skip_current_question returns the
reveal (question text and intended answer), resets the question slot,
does not itself trigger generation of the next question, and an
immediately following process_user_answer — any user, any environment —
returns the no-active-question response with an empty effect trace, so
update_score is never called. -/
theorem skip_then_answer_no_active (cfg : Config) (db : Bool)
    (ev : EvalOutcome) (now uid m sid : Nat) (ans : String) (s : GameState)
    (hm : s.current_question_message_id = some m) (hm0 : m ≠ 0)
    (hs : s.active_session_id = some sid) (hs0 : sid ≠ 0) :
    ((skip_current_question s).1
        = SkipMsg.skipped s.current_question_text
            s.current_question_intended_answer) ∧
    ((skip_current_question s).2.1 = reset_question_state s true) ∧
    ((skip_current_question s).2.2 = [Effect.skip_announce m]) ∧
    (Effect.gen_call ∉ (skip_current_question s).2.2 ∧
      Effect.gen_task ∉ (skip_current_question s).2.2 ∧
      ∀ k, Effect.post_question k ∉ (skip_current_question s).2.2) ∧
    (process_user_answer cfg db ev now uid ans (skip_current_question s).2.1
        = (AnswerMsg.noActiveQuestion, (skip_current_question s).2.1, [])) := by
  have htm : truthyNat s.current_question_message_id = true := by
    rw [hm]; exact truthyNat_some hm0
  have hts : truthyNat s.active_session_id = true := by
    rw [hs]; exact truthyNat_some hs0
  have hskip : skip_current_question s
      = (SkipMsg.skipped s.current_question_text
          s.current_question_intended_answer,
         reset_question_state s true, [Effect.skip_announce m]) := by
    simp [skip_current_question, htm, hts, hm, hs, hm0, hs0, truthyNat]
  rw [hskip]
  refine ⟨rfl, rfl, rfl, by simp, ?_⟩
  simp [process_user_answer, reset_question_state, truthyNat]

/-- Witness for C6 on the concrete active sample question. -/
theorem skip_then_answer_no_active_witness :
    ((skip_current_question sampleAdvanced).1
        = SkipMsg.skipped sampleAdvanced.current_question_text
            sampleAdvanced.current_question_intended_answer) ∧
    ((skip_current_question sampleAdvanced).2.1
        = reset_question_state sampleAdvanced true) ∧
    ((skip_current_question sampleAdvanced).2.2
        = [Effect.skip_announce 100]) ∧
    (Effect.gen_call ∉ (skip_current_question sampleAdvanced).2.2 ∧
      Effect.gen_task ∉ (skip_current_question sampleAdvanced).2.2 ∧
      ∀ k, Effect.post_question k ∉ (skip_current_question sampleAdvanced).2.2) ∧
    (process_user_answer defaultConfig true (EvalOutcome.ok "Correct" none) 99 42
        "a" (skip_current_question sampleAdvanced).2.1
      = (AnswerMsg.noActiveQuestion,
         (skip_current_question sampleAdvanced).2.1, [])) :=
  skip_then_answer_no_active defaultConfig true (EvalOutcome.ok "Correct" none)
    99 42 100 1 "a" sampleAdvanced (by decide) (by decide) (by decide) (by decide)

/-- Helper: process_user_answer never changes the current message id. -/
theorem process_message_id_unchanged (cfg : Config) (db : Bool)
    (ev : EvalOutcome) (now uid : Nat) (ans : String) (s : GameState) :
    (process_user_answer cfg db ev now uid ans s).2.1.current_question_message_id
      = s.current_question_message_id := by
  cases ev <;>
    (unfold process_user_answer; dsimp only; repeat (first | rfl | split))

/-- Helper: under any environment, a single process_user_answer call
maps a user's attempt count on the current question from a value ≤ max
to a value ≤ max (it adds one only when strictly below max, and all
other changes do not increase the count). -/
theorem process_attemptCount_le (cfg : Config) (db : Bool) (ev : EvalOutcome)
    (now uid u : Nat) (ans : String) (s : GameState)
    (hle : attemptCount s u ≤ cfg.MAX_ATTEMPTS_PER_QUESTION) :
    attemptCount (process_user_answer cfg db ev now uid ans s).2.1 u
      ≤ cfg.MAX_ATTEMPTS_PER_QUESTION := by
  have hmid := process_message_id_unchanged cfg db ev now uid ans s
  rw [attemptCount, hmid]
  have hle' : attemptCountOf s.user_attempts
      (s.current_question_message_id.getD 0) u
      ≤ cfg.MAX_ATTEMPTS_PER_QUESTION := hle
  have hens : attemptCountOf
      (ensureKey (s.current_question_message_id.getD 0) s.user_attempts)
      (s.current_question_message_id.getD 0) u
      ≤ cfg.MAX_ATTEMPTS_PER_QUESTION := by
    rw [attemptCountOf_ensureKey]; exact hle'
  cases ev with
  | noResponse =>
    unfold process_user_answer; dsimp only
    split
    · exact hle'
    split
    · exact hle'
    split
    · exact hens
    by_cases hu : u = uid
    · subst hu
      rw [attemptCountOf_charge, attemptCountOf_charge]
      omega
    · rw [attemptCountOf_charge_other _ _ _ _ _ hu,
        attemptCountOf_charge_other _ _ _ _ _ hu]
      exact hens
  | err msg =>
    unfold process_user_answer; dsimp only
    split
    · exact hle'
    split
    · exact hle'
    split
    · exact hens
    by_cases hu : u = uid
    · subst hu
      rw [attemptCountOf_charge, attemptCountOf_charge]
      omega
    · rw [attemptCountOf_charge_other _ _ _ _ _ hu,
        attemptCountOf_charge_other _ _ _ _ _ hu]
      exact hens
  | ok statusRaw explanation =>
    unfold process_user_answer; dsimp only
    split
    · exact hle'
    split
    · exact hle'
    split
    · exact hens
    next hlt =>
      by_cases hu : u = uid
      · subst hu
        split
        · rw [attemptCountOf_charge]; omega
        · split_ifs <;> (dsimp only; rw [attemptCountOf_charge]) <;> omega
      · split
        · rw [attemptCountOf_charge_other _ _ _ _ _ hu]; exact hens
        · split_ifs <;>
            (dsimp only; rw [attemptCountOf_charge_other _ _ _ _ _ hu]) <;>
            exact hens

/-- C4: no user's per-question attempt count ever exceeds
MAX_ATTEMPTS_PER_QUESTION under sequential execution of
process_user_answer; and when the calling user's count has already
reached the maximum before the call, the call returns the
no-attempts-left message, performs no LLM evaluation call, and leaves
the count unchanged. -/
theorem attempts_never_exceed_max (cfg : Config) (db : Bool)
    (ev : EvalOutcome) (now uid u m sid : Nat) (ans : String) (s : GameState) :
    (attemptCount s u ≤ cfg.MAX_ATTEMPTS_PER_QUESTION →
      attemptCount (process_user_answer cfg db ev now uid ans s).2.1 u
        ≤ cfg.MAX_ATTEMPTS_PER_QUESTION) ∧
    (s.current_question_message_id = some m → m ≠ 0 →
      s.active_session_id = some sid → sid ≠ 0 →
      s.question_answered_by = none →
      attemptCount s uid ≥ cfg.MAX_ATTEMPTS_PER_QUESTION →
      ((process_user_answer cfg db ev now uid ans s).1
          = AnswerMsg.noAttemptsLeft cfg.MAX_ATTEMPTS_PER_QUESTION) ∧
      (∀ q ia a, Effect.eval_call q ia a
          ∉ (process_user_answer cfg db ev now uid ans s).2.2) ∧
      (∀ us sess d, Effect.update_score us sess d
          ∉ (process_user_answer cfg db ev now uid ans s).2.2) ∧
      (attemptCount (process_user_answer cfg db ev now uid ans s).2.1 uid
          = attemptCount s uid)) := by
  constructor
  · exact process_attemptCount_le cfg db ev now uid u ans s
  · intro hm hm0 hs hs0 hr hge
    have htm : truthyNat s.current_question_message_id = true := by
      rw [hm]; exact truthyNat_some hm0
    have hts : truthyNat s.active_session_id = true := by
      rw [hs]; exact truthyNat_some hs0
    have htr : truthyNat s.question_answered_by = false := by rw [hr]; rfl
    have hge2 : cfg.MAX_ATTEMPTS_PER_QUESTION
        ≤ attemptCountOf s.user_attempts m uid := by
      simpa [attemptCount, hm] using hge
    simp [process_user_answer, truthyNat, htm, hts, htr, hm, hs, hr, hge2,
      hm0, hs0, attemptCount, attemptCountOf_ensureKey]

/-- Witness for C4 on a state where user 42 has exhausted all five
attempts for the sample question. -/
theorem attempts_never_exceed_max_witness :
    (attemptCount { sampleAdvanced with user_attempts := [(100, [(42, 5)])] } 42
        ≤ defaultConfig.MAX_ATTEMPTS_PER_QUESTION →
      attemptCount (process_user_answer defaultConfig true
          (EvalOutcome.ok "Correct" none) 99 42 "a"
          { sampleAdvanced with user_attempts := [(100, [(42, 5)])] }).2.1 42
        ≤ defaultConfig.MAX_ATTEMPTS_PER_QUESTION) ∧
    ({ sampleAdvanced with
        user_attempts := [(100, [(42, 5)])] : GameState}.current_question_message_id
          = some 100 → (100 : Nat) ≠ 0 →
      { sampleAdvanced with
        user_attempts := [(100, [(42, 5)])] : GameState}.active_session_id
          = some 1 → (1 : Nat) ≠ 0 →
      { sampleAdvanced with
        user_attempts := [(100, [(42, 5)])] : GameState}.question_answered_by
          = none →
      attemptCount { sampleAdvanced with user_attempts := [(100, [(42, 5)])] } 42
          ≥ defaultConfig.MAX_ATTEMPTS_PER_QUESTION →
      ((process_user_answer defaultConfig true (EvalOutcome.ok "Correct" none)
          99 42 "a" { sampleAdvanced with user_attempts := [(100, [(42, 5)])] }).1
          = AnswerMsg.noAttemptsLeft defaultConfig.MAX_ATTEMPTS_PER_QUESTION) ∧
      (∀ q ia a, Effect.eval_call q ia a
          ∉ (process_user_answer defaultConfig true (EvalOutcome.ok "Correct" none)
              99 42 "a"
              { sampleAdvanced with user_attempts := [(100, [(42, 5)])] }).2.2) ∧
      (∀ us sess d, Effect.update_score us sess d
          ∉ (process_user_answer defaultConfig true (EvalOutcome.ok "Correct" none)
              99 42 "a"
              { sampleAdvanced with user_attempts := [(100, [(42, 5)])] }).2.2) ∧
      (attemptCount (process_user_answer defaultConfig true
            (EvalOutcome.ok "Correct" none) 99 42 "a"
            { sampleAdvanced with user_attempts := [(100, [(42, 5)])] }).2.1 42
          = attemptCount
              { sampleAdvanced with user_attempts := [(100, [(42, 5)])] } 42)) :=
  attempts_never_exceed_max defaultConfig true (EvalOutcome.ok "Correct" none)
    99 42 42 100 1 "a" { sampleAdvanced with user_attempts := [(100, [(42, 5)])] }

/-- Effect classifier: a skip_current_question call marker. -/
def isSkipCall : Effect → Bool
  | Effect.skip_call _ => true
  | _ => false

/-- Effect classifier: a generate_and_post_new_question call marker. -/
def isGenCall : Effect → Bool
  | Effect.gen_call => true
  | _ => false

/-- Helper: a truthy optional id is its (non-zero) value. -/
theorem truthyNat_eq_some {o : Option Nat} (h : truthyNat o = true) :
    o = some (o.getD 0) := by
  cases o with
  | none => simp [truthyNat] at h
  | some n => rfl

/-- Helper: skip_current_question on a state with an active question
and session reveals, resets, and announces the skip. -/
theorem skip_fire (s : GameState)
    (h1 : truthyNat s.current_question_message_id = true)
    (h2 : truthyNat s.active_session_id = true) :
    skip_current_question s
      = (SkipMsg.skipped s.current_question_text
           s.current_question_intended_answer,
         reset_question_state s true,
         [Effect.skip_announce (s.current_question_message_id.getD 0)]) := by
  simp [skip_current_question, h1, h2]

/-- Helper: generate_and_post_new_question performs at most the one
post_question call. -/
theorem generate_effects_shape (cfg : Config) (ch : Bool) (tp : List String)
    (gen : QGenResult) (nm now : Nat) (s : GameState) :
    (generate_and_post_new_question cfg ch tp gen nm now s).2 = []
    ∨ (generate_and_post_new_question cfg ch tp gen nm now s).2
        = [Effect.post_question nm] := by
  cases gen <;>
    (unfold generate_and_post_new_question; dsimp only;
     repeat (first | (left; rfl) | (right; rfl) | split))

/-- Helper: after generate_and_post_new_question the current message id
is the old one (aborted before the reset), cleared (aborted after the
reset), or the id of the newly posted message. -/
theorem generate_msgid_cases (cfg : Config) (ch : Bool) (tp : List String)
    (gen : QGenResult) (nm now : Nat) (s : GameState) :
    (generate_and_post_new_question cfg ch tp gen nm now
        s).1.current_question_message_id = s.current_question_message_id
    ∨ (generate_and_post_new_question cfg ch tp gen nm now
        s).1.current_question_message_id = none
    ∨ (generate_and_post_new_question cfg ch tp gen nm now
        s).1.current_question_message_id = some nm := by
  cases gen <;>
    (unfold generate_and_post_new_question; dsimp only;
     repeat
       (first | (left; rfl) | (right; left; rfl) | (right; right; rfl) | split))

/-- Helper: a timed-out tick is the skip followed by the generation. -/
theorem tick_fire (cfg : Config) (now m sid t : Nat) (ch : Bool)
    (tp : List String) (gen : QGenResult) (nm : Nat) (s : GameState)
    (hm : s.current_question_message_id = some m) (hm0 : m ≠ 0)
    (hs : s.active_session_id = some sid) (hs0 : sid ≠ 0)
    (hr : s.question_answered_by = none)
    (hpt : s.current_question_post_time = some t)
    (ht : now - t > timeoutSeconds cfg) :
    question_inactivity_timer cfg now ch tp gen nm s
      = ((generate_and_post_new_question cfg ch tp gen nm now
            (reset_question_state s true)).1,
         [Effect.skip_call m, Effect.skip_announce m, Effect.gen_call]
           ++ (generate_and_post_new_question cfg ch tp gen nm now
                 (reset_question_state s true)).2) := by
  have ha : truthyNat s.active_session_id = true := by
    rw [hs]; exact truthyNat_some hs0
  have hb : truthyNat s.current_question_message_id = true := by
    rw [hm]; exact truthyNat_some hm0
  have hc : truthyNat s.question_answered_by = false := by rw [hr]; rfl
  have hg : (!truthyNat s.active_session_id
      || !truthyNat s.current_question_message_id
      || truthyNat s.question_answered_by) = false := by
    rw [ha, hb, hc]; rfl
  unfold question_inactivity_timer
  rw [hg, hpt]
  dsimp only
  rw [if_pos ht, skip_fire s hb ha, hm]
  dsimp only
  rfl

/-- Helper: every skip_call in a tick's trace names the question that
was current when the tick ran. -/
theorem tick_skip_calls (cfg : Config) (now : Nat) (ch : Bool)
    (tp : List String) (gen : QGenResult) (nm : Nat) (s : GameState) (x : Nat)
    (hx : Effect.skip_call x
        ∈ (question_inactivity_timer cfg now ch tp gen nm s).2) :
    s.current_question_message_id = some x := by
  unfold question_inactivity_timer at hx
  by_cases hg : (!truthyNat s.active_session_id
      || !truthyNat s.current_question_message_id
      || truthyNat s.question_answered_by) = true
  · rw [if_pos hg] at hx; simp at hx
  · rw [if_neg hg] at hx
    have hg0 : (!truthyNat s.active_session_id
        || !truthyNat s.current_question_message_id
        || truthyNat s.question_answered_by) = false := by
      cases h : (!truthyNat s.active_session_id
          || !truthyNat s.current_question_message_id
          || truthyNat s.question_answered_by) with
      | false => rfl
      | true => exact absurd h hg
    have ha : truthyNat s.active_session_id = true := by
      rcases Bool.or_eq_false_iff.mp hg0 with ⟨h1, _⟩
      rcases Bool.or_eq_false_iff.mp h1 with ⟨h3, _⟩
      simpa using h3
    have hb : truthyNat s.current_question_message_id = true := by
      rcases Bool.or_eq_false_iff.mp hg0 with ⟨h1, _⟩
      rcases Bool.or_eq_false_iff.mp h1 with ⟨_, h4⟩
      simpa using h4
    cases hpt : s.current_question_post_time with
    | none => rw [hpt] at hx; simp at hx
    | some t =>
      rw [hpt] at hx
      dsimp only at hx
      by_cases hto : now - t > timeoutSeconds cfg
      · rw [if_pos hto, skip_fire s hb ha] at hx
        dsimp only at hx
        rcases generate_effects_shape cfg ch tp gen nm now
            (reset_question_state s true) with hsh | hsh <;>
          rw [hsh] at hx <;> simp at hx <;>
          (rw [hx]; exact truthyNat_eq_some hb)
      · rw [if_neg hto] at hx; simp at hx

/-- C7: a watchdog tick is a no-op when there is no active session, no
current question, or the question already has a resolver; when the
question has timed out it performs exactly one skip_current_question
followed by one generate_and_post_new_question; and the following tick
never issues a skip for the already-replaced question. -/
theorem watchdog_tick_behavior (cfg : Config) (now m sid t : Nat) (ch : Bool)
    (tp : List String) (gen : QGenResult) (nm : Nat) (s : GameState) :
    ((truthyNat s.active_session_id = false
        ∨ truthyNat s.current_question_message_id = false
        ∨ truthyNat s.question_answered_by = true) →
      question_inactivity_timer cfg now ch tp gen nm s = (s, [])) ∧
    (s.current_question_message_id = some m → m ≠ 0 →
      s.active_session_id = some sid → sid ≠ 0 →
      s.question_answered_by = none →
      s.current_question_post_time = some t →
      now - t > timeoutSeconds cfg →
      ((question_inactivity_timer cfg now ch tp gen nm s).2
          = [Effect.skip_call m, Effect.skip_announce m, Effect.gen_call]
              ++ (generate_and_post_new_question cfg ch tp gen nm now
                    (reset_question_state s true)).2) ∧
      (question_inactivity_timer cfg now ch tp gen nm s).2.countP
          (fun e => isSkipCall e) = 1 ∧
      (question_inactivity_timer cfg now ch tp gen nm s).2.countP
          (fun e => isGenCall e) = 1) ∧
    (s.current_question_message_id = some m → m ≠ 0 →
      s.active_session_id = some sid → sid ≠ 0 →
      s.question_answered_by = none →
      s.current_question_post_time = some t →
      now - t > timeoutSeconds cfg → nm ≠ m →
      ∀ now2 ch2 tp2 gen2 nm2,
        Effect.skip_call m
          ∉ (question_inactivity_timer cfg now2 ch2 tp2 gen2 nm2
              (question_inactivity_timer cfg now ch tp gen nm s).1).2) := by
  refine ⟨?_, ?_, ?_⟩
  · intro h
    have hg : (!truthyNat s.active_session_id
        || !truthyNat s.current_question_message_id
        || truthyNat s.question_answered_by) = true := by
      rcases h with h | h | h <;> simp [h]
    unfold question_inactivity_timer
    rw [if_pos hg]
  · intro hm hm0 hs hs0 hr hpt ht
    rw [tick_fire cfg now m sid t ch tp gen nm s hm hm0 hs hs0 hr hpt ht]
    refine ⟨rfl, ?_, ?_⟩ <;>
      rcases generate_effects_shape cfg ch tp gen nm now
          (reset_question_state s true) with hsh | hsh <;>
      rw [hsh] <;>
      simp [isSkipCall, isGenCall]
  · intro hm hm0 hs hs0 hr hpt ht hneq now2 ch2 tp2 gen2 nm2 hmem
    have h1 := tick_skip_calls cfg now2 ch2 tp2 gen2 nm2 _ m hmem
    rw [tick_fire cfg now m sid t ch tp gen nm s hm hm0 hs hs0 hr hpt ht] at h1
    dsimp only at h1
    rcases generate_msgid_cases cfg ch tp gen nm now
        (reset_question_state s true) with h2 | h2 | h2
    · rw [h2] at h1
      simp [reset_question_state] at h1
    · rw [h2] at h1; exact Option.noConfusion h1
    · rw [h2] at h1
      exact hneq (Option.some.inj h1)

/-- A tick environment and a resolved question state for the witness. -/
def sampleGen : QGenResult := QGenResult.ok "Q2" "A2" "basic knowledge"

/-- Witness for C7: a resolved question makes the tick a no-op, and the
sample question, posted at t = 50 and checked at now = 7251 (elapsed
7201 s > 7200 s), fires exactly one skip and one generation, with no
skip of message 100 on the following tick. -/
theorem watchdog_tick_behavior_witness :
    (question_inactivity_timer defaultConfig 7251 true ["t"] sampleGen 200
        sampleResolved = (sampleResolved, [])) ∧
    ((question_inactivity_timer defaultConfig 7251 true ["t"] sampleGen 200
        sampleAdvanced).2
      = [Effect.skip_call 100, Effect.skip_announce 100, Effect.gen_call]
          ++ (generate_and_post_new_question defaultConfig true ["t"] sampleGen
                200 7251 (reset_question_state sampleAdvanced true)).2) ∧
    ((question_inactivity_timer defaultConfig 7251 true ["t"] sampleGen 200
        sampleAdvanced).2.countP (fun e => isSkipCall e) = 1) ∧
    ((question_inactivity_timer defaultConfig 7251 true ["t"] sampleGen 200
        sampleAdvanced).2.countP (fun e => isGenCall e) = 1) ∧
    (Effect.skip_call 100
        ∉ (question_inactivity_timer defaultConfig 99999 true ["t"] sampleGen 300
            (question_inactivity_timer defaultConfig 7251 true ["t"] sampleGen
              200 sampleAdvanced).1).2) := by
  have hfire := (watchdog_tick_behavior defaultConfig 7251 100 1 50 true ["t"]
    sampleGen 200 sampleAdvanced).2.1 (by decide) (by decide) (by decide)
    (by decide) (by decide) (by decide) (by decide)
  refine ⟨?_, hfire.1, hfire.2.1, hfire.2.2, ?_⟩
  · exact (watchdog_tick_behavior defaultConfig 7251 100 1 50 true ["t"]
      sampleGen 200 sampleResolved).1 (by decide)
  · exact (watchdog_tick_behavior defaultConfig 7251 100 1 50 true ["t"]
      sampleGen 200 sampleAdvanced).2.2 (by decide) (by decide) (by decide)
      (by decide) (by decide) (by decide) (by decide) (by decide)
      99999 true ["t"] sampleGen 300

end QuizBot
